import Mathlib

/-!
Verification of the GK_GATE API gateway core against its specification.

Each definition is a shallow embedding of one function of the TypeScript
source; the file cites the source file and lines above each definition.
JavaScript `Date.now()` timestamps are modelled as explicit `Nat` (or `Int`
where negative intermediate values occur) parameters, JavaScript `Map`s as
association lists in insertion order, and fallible operations as `Option`
or explicit sum types.
-/

namespace GKGate

/-! ### Generic association-list model of a JavaScript `Map` -/

/-- `Map.get`: first binding for the key, if any. -/
def mapGet (m : List (String × α)) (k : String) : Option α :=
  (m.find? (fun p => p.1 == k)).map (·.2)

/-- `Map.set`: replace the binding in place when the key is present
(JavaScript `Map.set` keeps the original insertion position), otherwise
append at the end. -/
def mapSet (m : List (String × α)) (k : String) (v : α) : List (String × α) :=
  if m.any (fun p => p.1 == k) then
    m.map (fun p => if p.1 == k then (k, v) else p)
  else
    m ++ [(k, v)]

/-- `Map.delete`: remove the binding for the key. -/
def mapDelete (m : List (String × α)) (k : String) : List (String × α) :=
  m.filter (fun p => !(p.1 == k))

/-- The keys of the map are pairwise distinct; every map built from the
empty map through `mapSet`/`mapDelete` satisfies this. -/
def KeysNodup (m : List (String × α)) : Prop :=
  (m.map (·.1)).Nodup

/-! ### Rate limiter
From `src/gateway/rate-limit/advanced-rate-limit.service.ts`. -/

/-- `RateLimitWindow` (lines 4-8). -/
structure RateLimitWindow where
  count : Nat
  resetTime : Nat
  firstRequest : Nat
deriving Repr, DecidableEq

/-- `RateLimitResult` (lines 10-16). -/
structure RateLimitResult where
  allowed : Bool
  totalHits : Nat
  remainingHits : Nat
  resetTime : Nat
  retryAfter : Option Nat
deriving Repr, DecidableEq

/-- The request fields `AdvancedRateLimitService` reads (lines 120-158): the
three ip sources, the authenticated user's `sub`, the url, the method and the
`User-Agent` header.  An absent header is `none`; a present but empty header
is `some ""` (falsy in the JavaScript guards). -/
structure RLRequest where
  xForwardedFor : Option String
  xRealIp : Option String
  ip : String
  userSub : Option String
  url : String
  method : String
  userAgent : Option String

/-- `RateLimitRule` (lines 18-23). -/
structure RateLimitRule where
  key : String
  limit : Nat
  window : Nat
  skipIf : Option (RLRequest → Bool) := none

/-- The fresh window of `checkSingleRule` lines 87-91:
`{count: 0, resetTime: now + rule.window, firstRequest: now}`. -/
def freshWindow (rule : RateLimitRule) (now : Nat) : RateLimitWindow :=
  { count := 0, resetTime := now + rule.window, firstRequest := now }

/-- Lines 83-93 of `checkSingleRule`: the window used for the check — a fresh
one when none is stored or the stored one has expired (`now >= resetTime`). -/
def currentWindow (w0 : Option RateLimitWindow) (rule : RateLimitRule)
    (now : Nat) : RateLimitWindow :=
  match w0 with
  | none => freshWindow rule now
  | some w => if w.resetTime ≤ now then freshWindow rule now else w

/-- `checkSingleRule` (lines 82-115).  Takes the window currently stored
under the rule's key (`none` when absent) and returns the stored window
after the call together with the result.  `Math.ceil((resetTime - now)/1000)`
is `(resetTime - now + 999) / 1000` on naturals (in the denial branch
`now ≤ resetTime` always holds). -/
def checkSingleRule (w0 : Option RateLimitWindow) (rule : RateLimitRule)
    (now : Nat) : RateLimitWindow × RateLimitResult :=
  let w : RateLimitWindow := currentWindow w0 rule now
  if rule.limit ≤ w.count then
    (w, { allowed := false, totalHits := w.count, remainingHits := 0,
          resetTime := w.resetTime,
          retryAfter := some ((w.resetTime - now + 999) / 1000) })
  else
    ({ w with count := w.count + 1 },
     { allowed := true, totalHits := w.count + 1,
       remainingHits := rule.limit - (w.count + 1),
       resetTime := w.resetTime, retryAfter := none })

/-- `getClientIp` (lines 140-158): `X-Forwarded-For` first entry, then
`X-Real-IP`, then the transport remote address; each falls through when
absent or empty (JavaScript falsiness).  An array-valued header (repeated
occurrences), from which the code takes the first element, is modelled by
that first element. -/
def getClientIp (request : RLRequest) : String :=
  match request.xForwardedFor with
  | some s =>
    if s == "" then
      match request.xRealIp with
      | some r => if r == "" then (if request.ip == "" then "unknown" else request.ip) else r
      | none => if request.ip == "" then "unknown" else request.ip
    else
      let first := ((s.splitOn ",").headD "").trim
      if first == "" then "unknown" else first
  | none =>
    match request.xRealIp with
    | some r => if r == "" then (if request.ip == "" then "unknown" else request.ip) else r
    | none => if request.ip == "" then "unknown" else request.ip

/-- `generateKey` (lines 120-135): substitute the five replacement tokens
into the rule's key template, in the object-literal order ip, user, path,
method, user-agent (each `String.replace` with a global regex on the
escaped literal token replaces every occurrence). -/
def generateKey (request : RLRequest) (keyPattern : String) : String :=
  let path := let p := (request.url.splitOn "?").headD ""
              if p == "" then "/" else p
  let user := match request.userSub with
              | some u => if u == "" then "anonymous" else u
              | none => "anonymous"
  let ua := match request.userAgent with
            | some u => if u == "" then "unknown" else u
            | none => "unknown"
  ((((keyPattern.replace "\x7bip\x7d" (getClientIp request)).replace
      "\x7buser\x7d" user).replace "\x7bpath\x7d" path).replace
      "\x7bmethod\x7d" request.method).replace "\x7buser-agent\x7d" ua

/-- `checkRateLimit`'s loop over the rules (lines 47-77), threading the
windows map.  The accumulator `acc` models `mostRestrictive`; `none` is the
initial value whose `remainingHits` is `Infinity` (so the first evaluated
rule always replaces it, and `none` is returned only when no rule was
evaluated). -/
def checkRateLimitGo (request : RLRequest) (now : Nat) :
    List RateLimitRule → List (String × RateLimitWindow) →
    Option RateLimitResult →
    List (String × RateLimitWindow) × Option RateLimitResult
  | [], ws, acc => (ws, acc)
  | rule :: rest, ws, acc =>
    if (match rule.skipIf with | some f => f request | none => false) then
      checkRateLimitGo request now rest ws acc
    else
      let key := generateKey request rule.key
      let wr := checkSingleRule (mapGet ws key) rule now
      let ws2 := mapSet ws key wr.1
      if wr.2.allowed then
        checkRateLimitGo request now rest ws2
          (match acc with
           | none => some wr.2
           | some m =>
             if wr.2.remainingHits < m.remainingHits then some wr.2 else some m)
      else
        (ws2, some wr.2)

/-- `checkRateLimit` (lines 47-77). -/
def checkRateLimit (request : RLRequest) (rules : List RateLimitRule)
    (ws : List (String × RateLimitWindow)) (now : Nat) :
    List (String × RateLimitWindow) × Option RateLimitResult :=
  checkRateLimitGo request now rules ws none

/-- The sequence of results produced by repeatedly evaluating one rule
(one `checkSingleRule` per `checkRateLimit` call that reaches the rule,
lines 62-63), threading the stored window. -/
def runChecks (rule : RateLimitRule) :
    Option RateLimitWindow → List Nat → List RateLimitResult
  | _, [] => []
  | s, now :: rest =>
    (checkSingleRule s rule now).2 ::
      runChecks rule (some (checkSingleRule s rule now).1) rest

/-- Number of allowed results that report a given window reset time. -/
def countAllowedAt (t : Nat) : List RateLimitResult → Nat
  | [] => 0
  | r :: rs =>
    (if r.allowed = true ∧ r.resetTime = t then 1 else 0) + countAllowedAt t rs

/-- How many more requests the rule can still allow against the window
instance whose reset time is `t`, given the stored state. -/
def allowance (rule : RateLimitRule) : Option RateLimitWindow → Nat → Nat
  | none, _ => rule.limit
  | some w, t =>
    if w.resetTime < t then rule.limit
    else if t = w.resetTime then rule.limit - w.count
    else 0

lemma allowance_le (rule : RateLimitRule) (s : Option RateLimitWindow)
    (t : Nat) : allowance rule s t ≤ rule.limit := by
  cases s with
  | none => simp [allowance]
  | some w => simp only [allowance]; split_ifs <;> omega

lemma allowance_currentWindow_le (rule : RateLimitRule) (hW : 0 < rule.window)
    (s : Option RateLimitWindow) (now t : Nat) :
    allowance rule (some (currentWindow s rule now)) t ≤ allowance rule s t := by
  cases s with
  | none =>
    simpa [currentWindow] using allowance_le rule (some (freshWindow rule now)) t
  | some w =>
    by_cases h : w.resetTime ≤ now
    · simp only [currentWindow, if_pos h, allowance, freshWindow]
      split_ifs <;> omega
    · simp [currentWindow, if_neg h]

lemma allowance_increment (rule : RateLimitRule) (w : RateLimitWindow)
    (hc : w.count < rule.limit) (t : Nat) :
    (if t = w.resetTime then 1 else 0) +
      allowance rule (some { w with count := w.count + 1 }) t ≤
      allowance rule (some w) t := by
  simp only [allowance]
  split_ifs <;> omega

lemma checkSingleRule_allowance_step (rule : RateLimitRule)
    (hW : 0 < rule.window) (s : Option RateLimitWindow) (now t : Nat) :
    (if (checkSingleRule s rule now).2.allowed = true ∧
        (checkSingleRule s rule now).2.resetTime = t then 1 else 0) +
      allowance rule (some (checkSingleRule s rule now).1) t ≤
      allowance rule s t := by
  have h1 := allowance_currentWindow_le rule hW s now t
  by_cases hl : rule.limit ≤ (currentWindow s rule now).count
  · simpa [checkSingleRule, hl] using h1
  · have hc : (currentWindow s rule now).count < rule.limit := by omega
    refine le_trans ?_ h1
    have h2 := allowance_increment rule (currentWindow s rule now) hc t
    simpa [checkSingleRule, hl, eq_comm] using h2

lemma countAllowedAt_runChecks (rule : RateLimitRule) (hW : 0 < rule.window) :
    ∀ (times : List Nat) (s : Option RateLimitWindow) (t : Nat),
      countAllowedAt t (runChecks rule s times) ≤ allowance rule s t
  | [], _, t => by simp [runChecks, countAllowedAt]
  | now :: rest, s, t => by
    have hstep := checkSingleRule_allowance_step rule hW s now t
    have hrec := countAllowedAt_runChecks rule hW rest
      (some (checkSingleRule s rule now).1) t
    calc countAllowedAt t (runChecks rule s (now :: rest))
        = (if (checkSingleRule s rule now).2.allowed = true ∧
              (checkSingleRule s rule now).2.resetTime = t then 1 else 0) +
            countAllowedAt t
              (runChecks rule (some (checkSingleRule s rule now).1) rest) := rfl
      _ ≤ (if (checkSingleRule s rule now).2.allowed = true ∧
              (checkSingleRule s rule now).2.resetTime = t then 1 else 0) +
            allowance rule (some (checkSingleRule s rule now).1) t :=
          Nat.add_le_add_left hrec _
      _ ≤ allowance rule s t := hstep

/-- The conjunction C1 states for one rule with limit `L = rule.limit` and
window `W = rule.window`: (1) in every run, at most `L` of the checks that
report a given window reset time are allowed; (2) once the stored count has
reached `L`, a check before `resetTime` is denied with the stored window
unchanged, `remainingHits = 0`, and
`retryAfter = ceil((resetTime - now)/1000)`; (3) every denial reports
`remainingHits = 0` and that `retryAfter`; (4) the first check at or after
`resetTime` stores a fresh window with `resetTime = now + W`,
`firstRequest = now` and count restarted; (5) a `checkRateLimit` call on a
single-rule list performs exactly one `checkSingleRule` against the rule's
generated key. -/
def RateLimitLinearity (rule : RateLimitRule) : Prop :=
  (∀ (times : List Nat) (t : Nat),
      countAllowedAt t (runChecks rule none times) ≤ rule.limit) ∧
  (∀ (w : RateLimitWindow) (now : Nat), now < w.resetTime →
      rule.limit ≤ w.count →
      checkSingleRule (some w) rule now =
        (w, { allowed := false, totalHits := w.count, remainingHits := 0,
              resetTime := w.resetTime,
              retryAfter := some ((w.resetTime - now + 999) / 1000) })) ∧
  (∀ (s : Option RateLimitWindow) (now : Nat),
      (checkSingleRule s rule now).2.allowed = false →
      (checkSingleRule s rule now).2.remainingHits = 0 ∧
      (checkSingleRule s rule now).2.retryAfter =
        some (((checkSingleRule s rule now).2.resetTime - now + 999) / 1000)) ∧
  (∀ (w : RateLimitWindow) (now : Nat), w.resetTime ≤ now →
      (checkSingleRule (some w) rule now).1.resetTime = now + rule.window ∧
      (checkSingleRule (some w) rule now).1.firstRequest = now ∧
      (checkSingleRule (some w) rule now).1.count ≤ 1) ∧
  (∀ (request : RLRequest) (ws : List (String × RateLimitWindow)) (now : Nat),
      rule.skipIf = none →
      checkRateLimit request [rule] ws now =
        (mapSet ws (generateKey request rule.key)
           (checkSingleRule (mapGet ws (generateKey request rule.key))
              rule now).1,
         some (checkSingleRule (mapGet ws (generateKey request rule.key))
              rule now).2))

/-- C1 — Rate-limit linearity: for every rule with positive window, the
fixed-window counter of `checkSingleRule` admits at most `limit` requests
per window instance; a check at or past the limit before the reset is
denied with `remainingHits = 0` and `retryAfter = ceil((reset - now)/1000)`;
and the first check at or after the reset creates a fresh window
`reset = now + window` with the count restarted. -/
theorem rateLimit_linearity (rule : RateLimitRule) (hW : 0 < rule.window) :
    RateLimitLinearity rule := by
  refine ⟨?_, ?_, ?_, ?_, ?_⟩
  · intro times t
    exact le_trans (countAllowedAt_runChecks rule hW times none t)
      (allowance_le rule none t)
  · intro w now h1 h2
    have hnot : ¬ w.resetTime ≤ now := by omega
    simp [checkSingleRule, currentWindow, hnot, h2]
  · intro s now h
    by_cases hl : rule.limit ≤ (currentWindow s rule now).count
    · simp [checkSingleRule, hl]
    · simp [checkSingleRule, hl] at h
  · intro w now h
    simp only [checkSingleRule, currentWindow, if_pos h]
    split_ifs <;> simp [freshWindow]
  · intro request ws now hskip
    by_cases ha : (checkSingleRule
        (mapGet ws (generateKey request rule.key)) rule now).2.allowed
    · simp [checkRateLimit, checkRateLimitGo, hskip, ha]
    · simp [checkRateLimit, checkRateLimitGo, hskip, ha]

/-- A concrete per-IP rule (100 requests per 60 s), as built by
`createRules` lines 188-194. -/
def perIpRule : RateLimitRule :=
  { key := "ip:1.2.3.4", limit := 100, window := 60000 }

theorem rateLimit_linearity_witness :
    0 < perIpRule.window ∧ RateLimitLinearity perIpRule :=
  ⟨by decide, rateLimit_linearity perIpRule (by decide)⟩

/-! ### Circuit breaker
From `src/gateway/circuit-breaker/circuit-breaker.service.ts`. -/

/-- `CircuitBreakerState` (lines 4-8). -/
inductive CircuitBreakerState
  | CLOSED
  | OPEN
  | HALF_OPEN
deriving Repr, DecidableEq

/-- `CircuitBreakerConfig` from `src/gateway/types/route.types.ts` lines
32-38; the optional `fallbackResponse` body is carried as an optional
string (its JSON rendering). -/
structure CircuitBreakerConfig where
  enabled : Bool
  threshold : Nat
  timeout : Nat
  monitorWindow : Nat
  fallbackResponse : Option String := none
deriving Repr, DecidableEq

/-- `CircuitBreakerStats` (lines 10-20); `Date` values as epoch
milliseconds. -/
structure CircuitBreakerStats where
  state : CircuitBreakerState
  failureCount : Nat
  successCount : Nat
  lastFailureTime : Option Nat
  lastSuccessTime : Option Nat
  nextAttemptTime : Option Nat
  totalRequests : Nat
  totalFailures : Nat
  totalSuccesses : Nat
deriving Repr, DecidableEq

/-- `CircuitBreakerInstance` (lines 22-28); the `config` field is not
duplicated here since every operation receives the config explicitly, as in
the source's method signatures. -/
structure CircuitBreakerInstance where
  id : String
  stats : CircuitBreakerStats
  windowStart : Nat
  failureWindow : List Nat
deriving Repr, DecidableEq

/-- `createCircuitBreaker` (lines 194-214). -/
def createCircuitBreaker (id : String) (now : Nat) : CircuitBreakerInstance :=
  { id := id,
    stats := { state := .CLOSED, failureCount := 0, successCount := 0,
               lastFailureTime := none, lastSuccessTime := none,
               nextAttemptTime := none, totalRequests := 0,
               totalFailures := 0, totalSuccesses := 0 },
    windowStart := now,
    failureWindow := [] }

/-- `cleanupWindow` (lines 257-260): keep the failure timestamps strictly
newer than `now - windowSize` (the JavaScript cutoff may be negative, hence
the `Int` comparison). -/
def cleanupWindow (cb : CircuitBreakerInstance) (now windowSize : Nat) :
    CircuitBreakerInstance :=
  { cb with
    failureWindow :=
      (cb.failureWindow.filter
        (fun time => (now : Int) - (windowSize : Int) < (time : Int))) }

/-- `transitionToClosed` (lines 219-228). -/
def transitionToClosed (cb : CircuitBreakerInstance) : CircuitBreakerInstance :=
  { cb with
    stats := { cb.stats with
               state := .CLOSED
               failureCount := 0
               nextAttemptTime := none }
    failureWindow := [] }

/-- `transitionToOpen` (lines 233-242); the source re-reads `Date.now()`
inside the transition, the same instant as the recording call. -/
def transitionToOpen (cb : CircuitBreakerInstance)
    (config : CircuitBreakerConfig) (now : Nat) : CircuitBreakerInstance :=
  { cb with
    stats := { cb.stats with
               state := .OPEN
               nextAttemptTime := some (now + config.timeout) } }

/-- `transitionToHalfOpen` (lines 247-252). -/
def transitionToHalfOpen (cb : CircuitBreakerInstance) : CircuitBreakerInstance :=
  { cb with
    stats := { cb.stats with
               state := .HALF_OPEN
               nextAttemptTime := none } }

/-- `canExecute` (lines 51-77) on one breaker instance: the decision and
the instance after the call (the OPEN → HALF_OPEN probe transition is the
only mutation). -/
def canExecute (config : CircuitBreakerConfig) (cb : CircuitBreakerInstance)
    (now : Nat) : Bool × CircuitBreakerInstance :=
  if !config.enabled then (true, cb)
  else
    match cb.stats.state with
    | .CLOSED => (true, cb)
    | .OPEN =>
      match cb.stats.nextAttemptTime with
      | some t => if t ≤ now then (true, transitionToHalfOpen cb) else (false, cb)
      | none => (false, cb)
    | .HALF_OPEN => (true, cb)

/-- Lines 122-126 of `recordFailure`: bump the counters, stamp the failure
time and push `now` onto the sliding window. -/
def recordFailurePush (cb : CircuitBreakerInstance) (now : Nat) :
    CircuitBreakerInstance :=
  { cb with
    stats := { cb.stats with
               failureCount := cb.stats.failureCount + 1
               totalFailures := cb.stats.totalFailures + 1
               totalRequests := cb.stats.totalRequests + 1
               lastFailureTime := some now }
    failureWindow := cb.failureWindow ++ [now] }

/-- The instance after `recordFailure`'s push and prune (lines 122-129),
before the threshold test. -/
def prunedAfterFailure (config : CircuitBreakerConfig)
    (cb : CircuitBreakerInstance) (now : Nat) : CircuitBreakerInstance :=
  cleanupWindow (recordFailurePush cb now) now config.monitorWindow

/-- `recordFailure` (lines 114-135). -/
def recordFailure (config : CircuitBreakerConfig)
    (cb : CircuitBreakerInstance) (now : Nat) : CircuitBreakerInstance :=
  if !config.enabled then cb
  else if config.threshold ≤ (prunedAfterFailure config cb now).failureWindow.length then
    transitionToOpen (prunedAfterFailure config cb now) config now
  else
    prunedAfterFailure config cb now

/-- Lines 90-93 of `recordSuccess`: bump the counters and stamp the success
time. -/
def recordSuccessUpd (cb : CircuitBreakerInstance) (now : Nat) :
    CircuitBreakerInstance :=
  { cb with
    stats := { cb.stats with
               successCount := cb.stats.successCount + 1
               totalSuccesses := cb.stats.totalSuccesses + 1
               totalRequests := cb.stats.totalRequests + 1
               lastSuccessTime := some now } }

/-- `recordSuccess` (lines 82-109). -/
def recordSuccess (config : CircuitBreakerConfig)
    (cb : CircuitBreakerInstance) (now : Nat) : CircuitBreakerInstance :=
  if !config.enabled then cb
  else
    match (cleanupWindow (recordSuccessUpd cb now) now config.monitorWindow).stats.state with
    | .HALF_OPEN =>
      transitionToClosed (cleanupWindow (recordSuccessUpd cb now) now config.monitorWindow)
    | .OPEN =>
      transitionToClosed (cleanupWindow (recordSuccessUpd cb now) now config.monitorWindow)
    | .CLOSED =>
      cleanupWindow (recordSuccessUpd cb now) now config.monitorWindow

lemma cleanup_recordSuccessUpd_state (config : CircuitBreakerConfig)
    (cb : CircuitBreakerInstance) (now : Nat) :
    (cleanupWindow (recordSuccessUpd cb now) now config.monitorWindow).stats.state
      = cb.stats.state := by
  simp [cleanupWindow, recordSuccessUpd]

lemma recordFailure_failureWindow (config : CircuitBreakerConfig)
    (cb : CircuitBreakerInstance) (now : Nat) (hen : config.enabled = true) :
    (recordFailure config cb now).failureWindow =
      (prunedAfterFailure config cb now).failureWindow := by
  simp only [recordFailure, hen, Bool.not_true]
  split_ifs <;> simp_all [transitionToOpen]

/-- The conjunction C2 states for one enabled breaker: after the
`recordFailure` whose pruned window reaches the threshold the breaker is
OPEN with `nextAttemptTime = now + timeout`; every `canExecute` strictly
before that time denies and leaves the instance unchanged; the first
`canExecute` at or after it allows and moves the state to HALF_OPEN; and a
`recordSuccess` on any HALF_OPEN instance yields CLOSED with an empty
failure window and no `nextAttemptTime`. -/
def BreakerLifecycle (config : CircuitBreakerConfig)
    (cb : CircuitBreakerInstance) (now : Nat) : Prop :=
  (recordFailure config cb now).stats.state = .OPEN ∧
  (recordFailure config cb now).stats.nextAttemptTime = some (now + config.timeout) ∧
  (∀ n, n < now + config.timeout →
     canExecute config (recordFailure config cb now) n =
       (false, recordFailure config cb now)) ∧
  (∀ n, now + config.timeout ≤ n →
     (canExecute config (recordFailure config cb now) n).1 = true ∧
     (canExecute config (recordFailure config cb now) n).2.stats.state = .HALF_OPEN ∧
     (canExecute config (recordFailure config cb now) n).2.stats.nextAttemptTime = none) ∧
  (∀ (cb2 : CircuitBreakerInstance) (m : Nat), cb2.stats.state = .HALF_OPEN →
     (recordSuccess config cb2 m).stats.state = .CLOSED ∧
     (recordSuccess config cb2 m).failureWindow = [] ∧
     (recordSuccess config cb2 m).stats.nextAttemptTime = none)

/-- C2 — Circuit-breaker monotonicity, as claimed: threshold-reaching
failure window opens the breaker, `canExecute` denies until
`nextAttemptTime`, the first probe at or after it moves to HALF_OPEN, and a
HALF_OPEN success closes the breaker with an empty window. -/
theorem circuitBreaker_monotonicity (config : CircuitBreakerConfig)
    (cb : CircuitBreakerInstance) (now : Nat)
    (hen : config.enabled = true)
    (hcl : cb.stats.state = .CLOSED)
    (hthr : config.threshold ≤ (recordFailure config cb now).failureWindow.length) :
    BreakerLifecycle config cb now := by
  have hcond : config.threshold ≤
      (prunedAfterFailure config cb now).failureWindow.length := by
    rw [← recordFailure_failureWindow config cb now hen]; exact hthr
  have hred : recordFailure config cb now =
      transitionToOpen (prunedAfterFailure config cb now) config now := by
    simp [recordFailure, hen, hcond]
  refine ⟨?_, ?_, ?_, ?_, ?_⟩
  · rw [hred]; simp [transitionToOpen]
  · rw [hred]; simp [transitionToOpen]
  · intro n hn
    have : ¬ (now + config.timeout ≤ n) := by omega
    rw [hred]; simp [canExecute, hen, transitionToOpen, this]
  · intro n hn
    rw [hred]
    simp [canExecute, hen, transitionToOpen, transitionToHalfOpen, hn]
  · intro cb2 m hho
    have hst := cleanup_recordSuccessUpd_state config cb2 m
    rw [hho] at hst
    simp [recordSuccess, hen, hst, transitionToClosed]

/-- The breaker config used by the `/api/users` demo route
(`route-config.service.ts` lines 181-186), with threshold 2 for a compact
witness. -/
def demoBreakerConfig : CircuitBreakerConfig :=
  { enabled := true, threshold := 2, timeout := 30000, monitorWindow := 60000 }

/-- A CLOSED breaker instance that already holds one failure at t = 900 ms
in its sliding window. -/
def demoBreaker : CircuitBreakerInstance :=
  { createCircuitBreaker "route-users:http://user-service:3001/users" 0 with
    failureWindow := [900] }

theorem circuitBreaker_monotonicity_witness :
    demoBreakerConfig.enabled = true ∧
    demoBreaker.stats.state = .CLOSED ∧
    demoBreakerConfig.threshold ≤
      (recordFailure demoBreakerConfig demoBreaker 1000).failureWindow.length ∧
    BreakerLifecycle demoBreakerConfig demoBreaker 1000 :=
  ⟨by decide, by decide, by decide,
   circuitBreaker_monotonicity demoBreakerConfig demoBreaker 1000
     (by decide) (by decide) (by decide)⟩

/-- A HALF_OPEN breaker whose sliding window holds two stale failures
(t = 0 and t = 1), with `monitorWindow = 10`. -/
def staleHalfOpenBreaker : CircuitBreakerInstance :=
  { id := "route-users:http://user-service:3001/users",
    stats := { state := .HALF_OPEN, failureCount := 2, successCount := 0,
               lastFailureTime := some 1, lastSuccessTime := none,
               nextAttemptTime := none, totalRequests := 2,
               totalFailures := 2, totalSuccesses := 0 },
    windowStart := 0,
    failureWindow := [0, 1] }

/-- The config of `staleHalfOpenBreaker`'s scenario: threshold 2, timeout
100 ms, monitor window 10 ms. -/
def staleHalfOpenConfig : CircuitBreakerConfig :=
  { enabled := true, threshold := 2, timeout := 100, monitorWindow := 10 }

/-- C3 counterexample: a single `recordFailure` at t = 1000 on an enabled
HALF_OPEN breaker leaves the breaker HALF_OPEN — the two old failures fall
out of the 10 ms monitor window, the pruned window holds only the new
failure, 1 < threshold, so `transitionToOpen` is not taken, contradicting
the claim that the breaker returns to OPEN regardless of the pruned window. -/
theorem halfOpen_failure_not_reopened :
    staleHalfOpenConfig.enabled = true ∧
    staleHalfOpenBreaker.stats.state = .HALF_OPEN ∧
    (recordFailure staleHalfOpenConfig staleHalfOpenBreaker 1000).stats.state
      = .HALF_OPEN ∧
    (recordFailure staleHalfOpenConfig staleHalfOpenBreaker 1000).stats.state
      ≠ .OPEN ∧
    (recordFailure staleHalfOpenConfig staleHalfOpenBreaker 1000).stats.nextAttemptTime
      = none := by decide

/-- C3 amended: a `recordFailure` on an enabled HALF_OPEN breaker
transitions to OPEN with `nextAttemptTime = now + timeout` exactly when the
pruned window (the new failure included) reaches the threshold; otherwise
the breaker stays HALF_OPEN with just the pruned window stored. -/
theorem halfOpen_failure_reopen_iff (config : CircuitBreakerConfig)
    (cb : CircuitBreakerInstance) (now : Nat)
    (hen : config.enabled = true)
    (hho : cb.stats.state = .HALF_OPEN) :
    (config.threshold ≤ (prunedAfterFailure config cb now).failureWindow.length →
       recordFailure config cb now =
         transitionToOpen (prunedAfterFailure config cb now) config now ∧
       (recordFailure config cb now).stats.state = .OPEN ∧
       (recordFailure config cb now).stats.nextAttemptTime =
         some (now + config.timeout)) ∧
    ((prunedAfterFailure config cb now).failureWindow.length < config.threshold →
       recordFailure config cb now = prunedAfterFailure config cb now ∧
       (recordFailure config cb now).stats.state = .HALF_OPEN) := by
  constructor
  · intro hcond
    have hred : recordFailure config cb now =
        transitionToOpen (prunedAfterFailure config cb now) config now := by
      simp [recordFailure, hen, hcond]
    exact ⟨hred, by rw [hred]; simp [transitionToOpen],
           by rw [hred]; simp [transitionToOpen]⟩
  · intro hcond
    have hnot : ¬ config.threshold ≤
        (prunedAfterFailure config cb now).failureWindow.length := by omega
    have hred : recordFailure config cb now = prunedAfterFailure config cb now := by
      simp [recordFailure, hen, hnot]
    refine ⟨hred, ?_⟩
    rw [hred]
    simpa [prunedAfterFailure, cleanupWindow, recordFailurePush] using hho

theorem halfOpen_failure_reopen_iff_witness :
    (staleHalfOpenConfig.threshold ≤
       (prunedAfterFailure staleHalfOpenConfig staleHalfOpenBreaker 1000).failureWindow.length →
       recordFailure staleHalfOpenConfig staleHalfOpenBreaker 1000 =
         transitionToOpen
           (prunedAfterFailure staleHalfOpenConfig staleHalfOpenBreaker 1000)
           staleHalfOpenConfig 1000 ∧
       (recordFailure staleHalfOpenConfig staleHalfOpenBreaker 1000).stats.state = .OPEN ∧
       (recordFailure staleHalfOpenConfig staleHalfOpenBreaker 1000).stats.nextAttemptTime =
         some (1000 + staleHalfOpenConfig.timeout)) ∧
    ((prunedAfterFailure staleHalfOpenConfig staleHalfOpenBreaker 1000).failureWindow.length <
       staleHalfOpenConfig.threshold →
       recordFailure staleHalfOpenConfig staleHalfOpenBreaker 1000 =
         prunedAfterFailure staleHalfOpenConfig staleHalfOpenBreaker 1000 ∧
       (recordFailure staleHalfOpenConfig staleHalfOpenBreaker 1000).stats.state = .HALF_OPEN) :=
  halfOpen_failure_reopen_iff staleHalfOpenConfig staleHalfOpenBreaker 1000
    (by decide) (by decide)

/-! ### Cache
From `src/gateway/cache/cache.service.ts`. -/

/-- JavaScript `String.prototype.includes` on character lists. -/
def charsInclude (pat : List Char) : List Char → Bool
  | [] => pat.isEmpty
  | d :: rest => pat.isPrefixOf (d :: rest) || charsInclude pat rest

/-- `s.includes(pat)` in JavaScript. -/
def strIncludes (s pat : String) : Bool :=
  charsInclude pat.data s.data

/-- `headers['cache-control'] || ''` (line 240): the header value, or the
empty string when the header is absent (an empty value is falsy and equally
yields `''`). -/
def cacheControlOf (headers : List (String × String)) : String :=
  (mapGet headers "cache-control").getD ""

/-- `shouldCacheResponse` (lines 233-251): reject statuses ≥ 400, a
`Cache-Control` containing `no-cache` or `no-store`, and a (truthy, i.e.
non-empty) `Set-Cookie` header. -/
def shouldCacheResponse (statusCode : Nat)
    (headers : List (String × String)) : Bool :=
  if 400 ≤ statusCode then false
  else if strIncludes (cacheControlOf headers) "no-cache" ||
          strIncludes (cacheControlOf headers) "no-store" then false
  else
    match mapGet headers "set-cookie" with
    | some v => v == ""
    | none => true

/-- `(x + 2^31) mod 2^32 - 2^31`: the value of a JavaScript 32-bit signed
wrap (`| 0`, `& x`, `<< n`) of an integer. -/
def toInt32 (x : Int) : Int := (x + 2 ^ 31) % 2 ^ 32 - 2 ^ 31

/-- One iteration of `hashString`'s loop (lines 373-377):
`hash = ((hash << 5) - hash) + charCode; hash = hash & hash`.  The
accumulator is a 32-bit signed integer throughout, so `hash << 5` is
`toInt32 (hash * 32)` and the `& hash` is a final `toInt32`. -/
def hashStep (h : Int) (c : Nat) : Int :=
  toInt32 (toInt32 (h * 32) - h + c)

/-- The loop of `hashString` over the string's character codes. -/
def hashLoop (s : String) : Int :=
  s.data.foldl (fun h c => hashStep h c.toNat) 0

/-- `hashString` (lines 371-379): the loop's 32-bit result, then
`Math.abs(hash).toString(16)` (lowercase hex of the absolute value).
`charCodeAt` yields UTF-16 code units, equated here with code points
(identical on BMP strings). -/
def hashString (s : String) : String :=
  String.mk (Nat.toDigits 16 (hashLoop s).natAbs)

/-- A truthy header value: present and non-empty. -/
def truthyHeader (headers : List (String × String)) (k : String) :
    Option String :=
  match mapGet headers k with
  | some v => if v == "" then none else some v
  | none => none

/-- `generateHttpCacheKey` (lines 218-228): `http:<METHOD>:<URL>`, with a
`:user:<hash>` discriminator appended when the request carries a truthy
`authorization` (or else `x-user-id`) header. -/
def generateHttpCacheKey (method url : String)
    (headers : List (String × String)) : String :=
  match truthyHeader headers "authorization" with
  | some a => "http:" ++ method ++ ":" ++ url ++ ":user:" ++ hashString a
  | none =>
    match truthyHeader headers "x-user-id" with
    | some u => "http:" ++ method ++ ":" ++ url ++ ":user:" ++ hashString u
    | none => "http:" ++ method ++ ":" ++ url

/-- A cached JavaScript value, as far as `estimateSize` distinguishes them;
an object is modelled by its `JSON.stringify` rendering. -/
inductive JsValue
  | jsNull
  | jsStr (s : String)
  | jsNum (n : Int)
  | jsBool (b : Bool)
  | jsObj (stringified : String)
deriving Repr, DecidableEq

/-- `estimateSize` (lines 347-366); string lengths are UTF-16 code-unit
counts in JavaScript, which this model equates with the character count
(identical on BMP strings). -/
def estimateSize : JsValue → Nat
  | .jsNull => 0
  | .jsStr s => 2 * s.length
  | .jsNum _ => 8
  | .jsBool _ => 1
  | .jsObj j => 2 * j.length

/-- `CacheEntry` (lines 4-12). -/
structure CacheEntry where
  key : String
  value : JsValue
  expiresAt : Nat
  createdAt : Nat
  accessCount : Nat
  lastAccessed : Nat
  size : Nat
deriving Repr, DecidableEq

/-- The cache limits of `CacheConfig` (lines 26-31); the sweep interval
plays no part in `set`. -/
structure CacheConfig where
  maxSize : Nat
  maxMemory : Nat
  defaultTTL : Nat
deriving Repr, DecidableEq

/-- `getCurrentMemoryUsage` (lines 336-342). -/
def getCurrentMemoryUsage (c : List (String × CacheEntry)) : Nat :=
  (c.map (fun p => p.2.size)).sum

/-- `shouldEvict` (lines 299-306). -/
def shouldEvict (cfg : CacheConfig) (c : List (String × CacheEntry))
    (newEntrySize : Nat) : Bool :=
  if cfg.maxSize ≤ c.length then true
  else decide (cfg.maxMemory < getCurrentMemoryUsage c + newEntrySize)

/-- Stable insertion into a list sorted ascending by `lastAccessed`. -/
def insertByAccess (p : String × CacheEntry) :
    List (String × CacheEntry) → List (String × CacheEntry)
  | [] => [p]
  | q :: rest =>
    if q.2.lastAccessed < p.2.lastAccessed then q :: insertByAccess p rest
    else p :: q :: rest

/-- The stable ascending sort by `lastAccessed` of `evictEntries` line 314
(`Array.prototype.sort` with comparator `a.lastAccessed - b.lastAccessed`
is a stable sort by that key, which determines its output uniquely). -/
def sortByLastAccessed : List (String × CacheEntry) → List (String × CacheEntry)
  | [] => []
  | p :: rest => insertByAccess p (sortByLastAccessed rest)

/-- The loop of `evictEntries` (lines 316-327): walk the LRU-sorted
entries, stopping once enough space is freed and the entry count is below
`maxSize`, deleting from the live map otherwise. -/
def evictLoop (cfg : CacheConfig) (spaceNeeded : Nat) :
    List (String × CacheEntry) → List (String × CacheEntry) → Nat →
    List (String × CacheEntry)
  | [], c, _ => c
  | (k, e) :: rest, c, spaceFreed =>
    if spaceNeeded ≤ spaceFreed ∧ c.length < cfg.maxSize then c
    else evictLoop cfg spaceNeeded rest (mapDelete c k) (spaceFreed + e.size)

/-- `evictEntries` (lines 311-331). -/
def evictEntries (cfg : CacheConfig) (c : List (String × CacheEntry))
    (spaceNeeded : Nat) : List (String × CacheEntry) :=
  evictLoop cfg spaceNeeded (sortByLastAccessed c) c 0

/-- The entry built by `set` (lines 107-115); `ttl || defaultTTL` makes a
zero or absent per-entry TTL fall back to the default. -/
def newCacheEntry (cfg : CacheConfig) (key : String) (value : JsValue)
    (ttl : Option Nat) (now : Nat) : CacheEntry :=
  { key := key
    value := value
    expiresAt := now + (match ttl with
                        | some t => if t = 0 then cfg.defaultTTL else t
                        | none => cfg.defaultTTL)
    createdAt := now
    accessCount := 0
    lastAccessed := now
    size := estimateSize value }

/-- `set` (lines 97-121): evict if either limit would be exceeded, then
store the entry. -/
def cacheSet (cfg : CacheConfig) (c : List (String × CacheEntry))
    (key : String) (value : JsValue) (ttl : Option Nat) (now : Nat) :
    List (String × CacheEntry) :=
  mapSet
    (if shouldEvict cfg c (estimateSize value) then
       evictEntries cfg c (estimateSize value)
     else c)
    key (newCacheEntry cfg key value ttl now)

/-- C7 counterexample: `shouldCacheResponse` accepts status 301 with no
cache-restricting headers, yet 301 is not in the 2xx range — the code only
rejects statuses ≥ 400 (line 235), so the claimed "iff 2xx" is false. -/
theorem shouldCacheResponse_redirect_cached :
    shouldCacheResponse 301 [] = true ∧ ¬(200 ≤ 301 ∧ 301 ≤ 299) := by
  decide

/-- C7 amended: `shouldCacheResponse` is true iff the status is < 400 (not
only 2xx), `Cache-Control` contains neither `no-cache` nor `no-store`, and
any `Set-Cookie` header present is empty. -/
theorem shouldCacheResponse_lt400_iff (statusCode : Nat)
    (headers : List (String × String)) :
    shouldCacheResponse statusCode headers = true ↔
      (statusCode < 400 ∧
       strIncludes (cacheControlOf headers) "no-cache" = false ∧
       strIncludes (cacheControlOf headers) "no-store" = false ∧
       ∀ v, mapGet headers "set-cookie" = some v → v = "") := by
  unfold shouldCacheResponse
  split_ifs with h1 h2
  · constructor
    · intro h; exact absurd h (by simp)
    · intro h; omega
  · constructor
    · intro h; exact absurd h (by simp)
    · intro h
      rw [Bool.or_eq_true] at h2
      rcases h2 with hc | hc
      · rw [h.2.1] at hc; exact absurd hc (by simp)
      · rw [h.2.2.1] at hc; exact absurd hc (by simp)
  · push_neg at h1
    simp only [Bool.or_eq_true, not_or, Bool.not_eq_true] at h2
    cases hsc : mapGet headers "set-cookie" with
    | none => simp [hsc, h1, h2.1, h2.2]
    | some v =>
      simp only [hsc, h1, h2.1, h2.2, beq_iff_eq, true_and, and_true]
      constructor
      · rintro hv v' hvv'
        rw [← Option.some_inj.mp hvv']; exact hv
      · intro h; exact h v rfl

/-- C8 counterexample: the user discriminator is `hashString`, a 32-bit
hash, and `"Aa"` and `"BB"` collide (both hash to `"840"`), so two requests
with the same method and URL but different authorization headers get the
same cache key — an entry stored under one is returned for the other. -/
theorem generateHttpCacheKey_collision :
    ("Aa" : String) ≠ "BB" ∧
    hashString "Aa" = hashString "BB" ∧
    generateHttpCacheKey "GET" "/api/data" [("authorization", "Aa")] =
      generateHttpCacheKey "GET" "/api/data" [("authorization", "BB")] := by
  decide

/-- C8 amended: the keys differ whenever the hashes of the two (non-empty)
authorization values differ — the discriminator separates principals only
up to `hashString` collisions. -/
theorem generateHttpCacheKey_personalized (method url a1 a2 : String)
    (h1 : a1 ≠ "") (h2 : a2 ≠ "") (hh : hashString a1 ≠ hashString a2) :
    generateHttpCacheKey method url [("authorization", a1)] ≠
      generateHttpCacheKey method url [("authorization", a2)] := by
  have e1 : truthyHeader [("authorization", a1)] "authorization" = some a1 := by
    simp [truthyHeader, mapGet, h1]
  have e2 : truthyHeader [("authorization", a2)] "authorization" = some a2 := by
    simp [truthyHeader, mapGet, h2]
  intro heq
  simp only [generateHttpCacheKey, e1, e2] at heq
  apply hh
  have hd := congrArg String.data heq
  simp only [String.data_append] at hd
  have hc := List.append_cancel_left hd
  exact congrArg String.mk hc

theorem generateHttpCacheKey_personalized_witness :
    generateHttpCacheKey "GET" "/api/data" [("authorization", "Aa")] ≠
      generateHttpCacheKey "GET" "/api/data" [("authorization", "Ab")] :=
  generateHttpCacheKey_personalized "GET" "/api/data" "Aa" "Ab"
    (by decide) (by decide) (by decide)

/-! C9: the two cache limits under `set`. -/

lemma insertByAccess_perm (p : String × CacheEntry)
    (l : List (String × CacheEntry)) :
    List.Perm (insertByAccess p l) (p :: l) := by
  induction l with
  | nil => simp [insertByAccess]
  | cons q rest ih =>
    simp only [insertByAccess]
    split_ifs with h
    · exact ((ih.cons q).trans (List.Perm.swap p q rest))
    · exact List.Perm.refl _

lemma sortByLastAccessed_perm (l : List (String × CacheEntry)) :
    List.Perm (sortByLastAccessed l) l := by
  induction l with
  | nil => simp [sortByLastAccessed]
  | cons p rest ih =>
    exact (insertByAccess_perm p (sortByLastAccessed rest)).trans (ih.cons p)

lemma keysNodup_mapDelete (c : List (String × CacheEntry)) (k : String)
    (h : KeysNodup c) : KeysNodup (mapDelete c k) :=
  List.Nodup.sublist (List.Sublist.map (·.1) (List.filter_sublist c)) h

lemma mem_mapDelete_of_ne (c : List (String × CacheEntry)) (k : String)
    (p : String × CacheEntry) (hp : p ∈ c) (hne : p.1 ≠ k) :
    p ∈ mapDelete c k := by
  simp [mapDelete, List.mem_filter, hp, hne]

lemma size_filter_le (c : List (String × CacheEntry))
    (q : String × CacheEntry → Bool) :
    getCurrentMemoryUsage (c.filter q) ≤ getCurrentMemoryUsage c := by
  induction c with
  | nil => simp [getCurrentMemoryUsage]
  | cons p rest ih =>
    simp only [getCurrentMemoryUsage, List.filter_cons] at *
    split_ifs
    · simp only [List.map_cons, List.sum_cons]; omega
    · simp only [List.map_cons, List.sum_cons]; omega

lemma size_mapDelete_le (c : List (String × CacheEntry)) (k : String)
    (e : CacheEntry) (h : (k, e) ∈ c) :
    getCurrentMemoryUsage (mapDelete c k) + e.size ≤ getCurrentMemoryUsage c := by
  induction c with
  | nil => cases h
  | cons p rest ih =>
    rcases List.mem_cons.mp h with h | h
    · subst h
      have hfilter := size_filter_le rest (fun p => !(p.1 == k))
      simp [mapDelete, getCurrentMemoryUsage, List.filter_cons] at hfilter ⊢
      omega
    · by_cases hpk : (p.1 == k) = true
      · have hrec := ih h
        simp [mapDelete, getCurrentMemoryUsage, List.filter_cons, hpk]
          at hrec ⊢
        omega
      · have hrec := ih h
        simp [mapDelete, getCurrentMemoryUsage, List.filter_cons, hpk]
          at hrec ⊢
        omega

lemma length_mapDelete_lt (c : List (String × CacheEntry)) (k : String)
    (e : CacheEntry) (h : (k, e) ∈ c) :
    (mapDelete c k).length < c.length := by
  have hsub : List.Sublist (mapDelete c k) c := List.filter_sublist c
  have hne : (k, e) ∉ mapDelete c k := by simp [mapDelete, List.mem_filter]
  rcases Nat.lt_or_ge (mapDelete c k).length c.length with hlt | hge
  · exact hlt
  · exfalso
    have heq := hsub.eq_of_length (Nat.le_antisymm hsub.length_le hge)
    rw [heq] at hne
    exact hne h

lemma length_mapSet_le (c : List (String × α)) (k : String) (v : α) :
    (mapSet c k v).length ≤ c.length + 1 := by
  simp only [mapSet]
  split_ifs with h
  · simp
  · simp

lemma keysNodup_mapSet (c : List (String × α)) (k : String) (v : α)
    (h : KeysNodup c) : KeysNodup (mapSet c k v) := by
  simp only [mapSet]
  split_ifs with hk
  · have hmap : (c.map (fun p => if p.1 == k then (k, v) else p)).map (·.1) =
        c.map (·.1) := by
      rw [List.map_map]
      refine List.map_congr_left ?_
      intro p _
      simp only [Function.comp_apply]
      split_ifs with hpk
      · exact (beq_iff_eq.mp hpk).symm
      · rfl
    unfold KeysNodup
    rw [hmap]
    exact h
  · unfold KeysNodup
    rw [List.map_append, List.nodup_append]
    refine ⟨h, by simp, ?_⟩
    intro a ha hb
    simp only [List.map_cons, List.map_nil, List.mem_singleton] at hb
    subst hb
    simp only [List.any_eq_true, not_exists, not_and, Bool.not_eq_true] at hk
    simp only [List.mem_map] at ha
    obtain ⟨p, hp, hp1⟩ := ha
    have := hk p hp
    rw [hp1] at this
    simp at this

lemma replace_map_eq_self (l : List (String × CacheEntry)) (k : String)
    (v : CacheEntry) (h : ∀ q ∈ l, (q.1 == k) = false) :
    l.map (fun p => if p.1 == k then (k, v) else p) = l := by
  induction l with
  | nil => rfl
  | cons q rest ih =>
    simp only [List.map_cons]
    rw [ih (fun q hq => h q (List.mem_cons_of_mem _ hq))]
    have := h q (List.mem_cons_self _ _)
    simp [this]

lemma size_mapSet_le (c : List (String × CacheEntry)) (k : String)
    (v : CacheEntry) (hnd : KeysNodup c) :
    getCurrentMemoryUsage (mapSet c k v) ≤ getCurrentMemoryUsage c + v.size := by
  simp only [mapSet]
  split_ifs with hk
  · induction c with
    | nil => simp [getCurrentMemoryUsage]
    | cons p rest ih =>
      have hnd' : KeysNodup rest := (List.nodup_cons.mp hnd).2
      by_cases hpk : (p.1 == k) = true
      · have hknot : ∀ q ∈ rest, (q.1 == k) = false := by
          intro q hq
          have hne : q.1 ≠ p.1 := by
            have hh := (List.nodup_cons.mp hnd).1
            intro hcontra
            have hqmem : q.1 ∈ rest.map (·.1) := List.mem_map_of_mem (·.1) hq
            rw [hcontra] at hqmem
            exact hh hqmem
          have hqk : q.1 ≠ k := fun hc => hne (hc.trans (beq_iff_eq.mp hpk).symm)
          simpa using hqk
        rw [List.map_cons, if_pos hpk, replace_map_eq_self rest k v hknot]
        simp only [getCurrentMemoryUsage, List.map_cons, List.sum_cons]
        omega
      · by_cases hany : rest.any (fun p => p.1 == k) = true
        · have hrec := ih hnd' hany
          rw [List.map_cons, if_neg hpk]
          simp only [getCurrentMemoryUsage, List.map_cons, List.sum_cons] at hrec ⊢
          omega
        · rw [replace_map_eq_self (p :: rest) k v ?side]
          case side =>
            intro q hq
            rcases List.mem_cons.mp hq with h | h
            · subst h; simpa using hpk
            · simp only [List.any_eq_true, not_exists, not_and,
                Bool.not_eq_true] at hany
              exact hany q h
          omega
  · simp [getCurrentMemoryUsage]

/-- The eviction loop either stops with the entry count below `maxSize`
having freed at least `spaceNeeded` net bytes, or exhausts the sorted list
(deleting every entry); key distinctness is preserved throughout. -/
lemma evictLoop_spec (cfg : CacheConfig) (needed : Nat) :
    ∀ (sorted c : List (String × CacheEntry)) (freed : Nat),
      KeysNodup c → (sorted.map (·.1)).Nodup → (∀ p ∈ sorted, p ∈ c) →
      KeysNodup (evictLoop cfg needed sorted c freed) ∧
      ((evictLoop cfg needed sorted c freed).length < cfg.maxSize ∧
         getCurrentMemoryUsage (evictLoop cfg needed sorted c freed) + needed ≤
           getCurrentMemoryUsage c + freed ∨
       (evictLoop cfg needed sorted c freed).length + sorted.length ≤ c.length ∧
         getCurrentMemoryUsage (evictLoop cfg needed sorted c freed) +
           (sorted.map (fun p => p.2.size)).sum ≤ getCurrentMemoryUsage c)
  | [], c, freed, hc, _, _ => by
    refine ⟨hc, Or.inr ⟨by simp [evictLoop], by simp [evictLoop]⟩⟩
  | (k, e) :: rest, c, freed, hc, hs, hmem => by
    by_cases hbr : needed ≤ freed ∧ c.length < cfg.maxSize
    · rw [show evictLoop cfg needed ((k, e) :: rest) c freed = c from by
        simp [evictLoop, hbr]]
      exact ⟨hc, Or.inl ⟨hbr.2, by omega⟩⟩
    · rw [show evictLoop cfg needed ((k, e) :: rest) c freed =
          evictLoop cfg needed rest (mapDelete c k) (freed + e.size) from by
        simp [evictLoop, hbr]]
      have hin : (k, e) ∈ c := hmem _ (List.mem_cons_self _ _)
      have hout : k ∉ rest.map (·.1) := (List.nodup_cons.mp (by simpa using hs)).1
      have hc' : KeysNodup (mapDelete c k) := keysNodup_mapDelete c k hc
      have hs' : (rest.map (·.1)).Nodup := (List.nodup_cons.mp (by simpa using hs)).2
      have hmem' : ∀ p ∈ rest, p ∈ mapDelete c k := by
        intro p hp
        refine mem_mapDelete_of_ne c k p (hmem p (List.mem_cons_of_mem _ hp)) ?_
        intro hpk
        exact hout (hpk ▸ List.mem_map_of_mem (·.1) hp)
      obtain ⟨hk', hdisj⟩ :=
        evictLoop_spec cfg needed rest (mapDelete c k) (freed + e.size) hc' hs' hmem'
      have hdel_mem := size_mapDelete_le c k e hin
      have hdel_len := length_mapDelete_lt c k e hin
      refine ⟨hk', ?_⟩
      rcases hdisj with ⟨hl, hm⟩ | ⟨hl, hm⟩
      · exact Or.inl ⟨hl, by omega⟩
      · refine Or.inr ⟨by simp only [List.length_cons]; omega, ?_⟩
        simp only [List.map_cons, List.sum_cons]
        omega

/-- C9 amended: a `set` on a well-formed cache satisfying both limits again
satisfies both limits, provided `maxSize ≥ 1` and the new entry's estimated
size alone fits in `maxMemory` — eviction in least-recently-accessed order
frees at least the inserted size (or empties the cache) before the entry is
stored. -/
theorem cacheSet_preserves_bounds (cfg : CacheConfig)
    (c : List (String × CacheEntry)) (key : String) (value : JsValue)
    (ttl : Option Nat) (now : Nat)
    (hnd : KeysNodup c)
    (hlen : c.length ≤ cfg.maxSize)
    (hmem : getCurrentMemoryUsage c ≤ cfg.maxMemory)
    (hmax : 1 ≤ cfg.maxSize)
    (hval : estimateSize value ≤ cfg.maxMemory) :
    KeysNodup (cacheSet cfg c key value ttl now) ∧
    (cacheSet cfg c key value ttl now).length ≤ cfg.maxSize ∧
    getCurrentMemoryUsage (cacheSet cfg c key value ttl now) ≤ cfg.maxMemory := by
  have hesize : (newCacheEntry cfg key value ttl now).size = estimateSize value := rfl
  unfold cacheSet
  by_cases he : shouldEvict cfg c (estimateSize value) = true
  · rw [if_pos he]
    unfold evictEntries
    have hperm := sortByLastAccessed_perm c
    have hcnd : (c.map (·.1)).Nodup := hnd
    have hsnd : ((sortByLastAccessed c).map (·.1)).Nodup :=
      (List.Perm.nodup_iff (hperm.map (·.1))).mpr hcnd
    have hsmem : ∀ p ∈ sortByLastAccessed c, p ∈ c := fun p hp => hperm.subset hp
    obtain ⟨hk', hdisj⟩ :=
      evictLoop_spec cfg (estimateSize value) (sortByLastAccessed c) c 0 hnd hsnd hsmem
    have hlen_eq : (sortByLastAccessed c).length = c.length := hperm.length_eq
    have hsum_eq : ((sortByLastAccessed c).map (fun p => p.2.size)).sum =
        getCurrentMemoryUsage c := (hperm.map (fun p => p.2.size)).sum_eq
    have hmset := size_mapSet_le
      (evictLoop cfg (estimateSize value) (sortByLastAccessed c) c 0) key
      (newCacheEntry cfg key value ttl now) hk'
    have hmlen := length_mapSet_le
      (evictLoop cfg (estimateSize value) (sortByLastAccessed c) c 0) key
      (newCacheEntry cfg key value ttl now)
    rw [hesize] at hmset
    rcases hdisj with ⟨hl, hm⟩ | ⟨hl, hm⟩
    · exact ⟨keysNodup_mapSet _ _ _ hk', by omega, by omega⟩
    · exact ⟨keysNodup_mapSet _ _ _ hk', by omega, by omega⟩
  · rw [if_neg he]
    have h1 : c.length < cfg.maxSize ∧
        getCurrentMemoryUsage c + estimateSize value ≤ cfg.maxMemory := by
      unfold shouldEvict at he
      split_ifs at he with h
      · exact absurd rfl he
      · constructor
        · omega
        · by_contra hcon
          exact he (by simp only [decide_eq_true_eq]; omega)
    have hmset := size_mapSet_le c key (newCacheEntry cfg key value ttl now) hnd
    have hmlen := length_mapSet_le c key (newCacheEntry cfg key value ttl now)
    rw [hesize] at hmset
    exact ⟨keysNodup_mapSet _ _ _ hnd, by omega, by omega⟩

/-- A cache config with room for 10 entries but only 4 bytes of memory. -/
def tinyCacheConfig : CacheConfig :=
  { maxSize := 10, maxMemory := 4, defaultTTL := 1000 }

/-- A cache config with `maxSize = 0`. -/
def zeroCapCacheConfig : CacheConfig :=
  { maxSize := 0, maxMemory := 100, defaultTTL := 1000 }

/-- C9 counterexample: starting from the empty cache (both limits hold),
one `set` can break either limit — a 6-byte string exceeds a 4-byte
`maxMemory` even after evicting everything, and any insertion exceeds
`maxSize = 0` — so the claim fails without assumptions on the new entry
and on `maxSize`. -/
theorem cacheSet_exceeds_bounds :
    (([] : List (String × CacheEntry)).length ≤ tinyCacheConfig.maxSize ∧
     getCurrentMemoryUsage ([] : List (String × CacheEntry)) ≤
       tinyCacheConfig.maxMemory) ∧
    tinyCacheConfig.maxMemory <
      getCurrentMemoryUsage
        (cacheSet tinyCacheConfig [] "http:GET:/a" (.jsStr "abc") none 0) ∧
    (([] : List (String × CacheEntry)).length ≤ zeroCapCacheConfig.maxSize ∧
     getCurrentMemoryUsage ([] : List (String × CacheEntry)) ≤
       zeroCapCacheConfig.maxMemory) ∧
    zeroCapCacheConfig.maxSize <
      (cacheSet zeroCapCacheConfig [] "http:GET:/a" JsValue.jsNull none 0).length := by
  decide

/-- A two-entry-capacity cache holding one 4-byte entry. -/
def demoCacheConfig : CacheConfig :=
  { maxSize := 2, maxMemory := 100, defaultTTL := 1000 }

/-- One stored entry under key `"a"`. -/
def demoCache : List (String × CacheEntry) :=
  [("a", { key := "a", value := .jsStr "hi", expiresAt := 10, createdAt := 0,
           accessCount := 0, lastAccessed := 0, size := 4 })]

theorem cacheSet_preserves_bounds_witness :
    KeysNodup (cacheSet demoCacheConfig demoCache "b" (JsValue.jsStr "xyz") none 5) ∧
    (cacheSet demoCacheConfig demoCache "b" (JsValue.jsStr "xyz") none 5).length ≤
      demoCacheConfig.maxSize ∧
    getCurrentMemoryUsage
        (cacheSet demoCacheConfig demoCache "b" (JsValue.jsStr "xyz") none 5) ≤
      demoCacheConfig.maxMemory :=
  cacheSet_preserves_bounds demoCacheConfig demoCache "b" (JsValue.jsStr "xyz")
    none 5 (by unfold KeysNodup; decide) (by decide) (by decide) (by decide)
    (by decide)

/-! ### Route registry
From `src/gateway/routing/route-config.service.ts` and the dispatch of
`src/gateway/gateway.controller.ts`. -/

/-- `HttpMethod` from `src/gateway/types/route.types.ts` lines 62-70. -/
inductive HttpMethod
  | GET | POST | PUT | DELETE | PATCH | HEAD | OPTIONS
deriving Repr, DecidableEq, BEq

/-- The enum's string value. -/
def HttpMethod.asString : HttpMethod → String
  | .GET => "GET"
  | .POST => "POST"
  | .PUT => "PUT"
  | .DELETE => "DELETE"
  | .PATCH => "PATCH"
  | .HEAD => "HEAD"
  | .OPTIONS => "OPTIONS"

/-- `RouteTarget` (route.types.ts lines 1-8); `lastHealthCheck` as epoch
milliseconds. -/
structure RouteTarget where
  url : String
  weight : Nat
  isHealthy : Bool
  lastHealthCheck : Nat
  responseTime : Nat
  errorCount : Nat
deriving Repr, DecidableEq

/-- `RouteConfig` (route.types.ts lines 10-24), restricted to the fields the
dispatch and the registry operations under proof read; the load-balancer
and optional rate-limit/header sub-configs play no part in matching or the
forwarding gate. -/
structure RouteConfig where
  id : String
  path : String
  method : HttpMethod
  targets : List RouteTarget
  circuitBreaker : CircuitBreakerConfig
  timeout : Nat
  retries : Nat
  isActive : Bool
  createdAt : Nat
  updatedAt : Nat
deriving Repr, DecidableEq

/-- `generateRouteKey` (`route-config.service.ts` lines 140-142):
`<METHOD>:<path>`. -/
def generateRouteKey (path : String) (method : HttpMethod) : String :=
  method.asString ++ ":" ++ path

/-- `getRoute` (lines 16-19): the exact-key lookup, with no look at the
route's `isActive` flag. -/
def getRoute (routes : List (String × RouteConfig)) (path : String)
    (method : HttpMethod) : Option RouteConfig :=
  mapGet routes (generateRouteKey path method)

/-- One token of the compiled route pattern of `pathMatches` (lines
127-135): a literal character, a `:param` segment (`([^/]+)`), or a `*`
(`.*`). -/
inductive PatternTok
  | lit (c : Char)
  | param
  | star
deriving Repr, DecidableEq

mutual

/-- The pattern compilation of `pathMatches` lines 129-131: each `:name`
(a colon followed by one or more non-`/` characters, greedily) becomes one
`param` token, each `*` a `star`, all else literals.  Route paths are
assumed free of other regex metacharacters, as everywhere in the
repository. -/
def tokenize : List Char → List PatternTok
  | [] => []
  | '*' :: rest => .star :: tokenize rest
  | ':' :: rest =>
    match rest with
    | [] => [.lit ':']
    | c :: _ =>
      if c = '/' then .lit ':' :: tokenize rest
      else .param :: skipParamRun rest
  | c :: rest => .lit c :: tokenize rest

def skipParamRun : List Char → List PatternTok
  | [] => []
  | c :: rest => if c = '/' then .lit '/' :: tokenize rest else skipParamRun rest

end

/-- What the regex `.` matches in JavaScript: any character except the four
line terminators. -/
def jsDotMatches (c : Char) : Bool :=
  !(c = '\n' || c = '\r' || c = '\u2028' || c = '\u2029')

/-- The anchored regex test of `pathMatches` lines 133-134, as a
backtracking matcher over the compiled tokens: `param` consumes one or more
non-`/` characters, `star` any run of `.`-matchable characters. -/
def toksMatch : List PatternTok → List Char → Bool
  | [], [] => true
  | [], _ :: _ => false
  | .lit c :: ts, d :: ds => c == d && toksMatch ts ds
  | .lit _ :: _, [] => false
  | .param :: _, [] => false
  | .param :: ts, d :: ds => d != '/' && (toksMatch ts ds || toksMatch (.param :: ts) ds)
  | .star :: ts, ds =>
    toksMatch ts ds ||
      (match ds with
       | [] => false
       | d :: ds2 => jsDotMatches d && toksMatch (.star :: ts) ds2)
termination_by ts ds => (ds.length, ts.length)

/-- `pathMatches` (lines 127-135). -/
def pathMatches (routePath requestPath : String) : Bool :=
  toksMatch (tokenize routePath.data) requestPath.data

/-- `findMatchingRoute` (lines 107-122): exact match first (no `isActive`
check), then the first route in insertion order with the same method that
is active and whose pattern matches. -/
def findMatchingRoute (routes : List (String × RouteConfig))
    (requestPath : String) (method : HttpMethod) : Option RouteConfig :=
  match getRoute routes requestPath method with
  | some r => some r
  | none =>
    (routes.map (·.2)).find?
      (fun r => r.method == method && r.isActive && pathMatches r.path requestPath)

/-- The two demo routes of `initializeDefaultRoutes`
(`route-config.service.ts` lines 147-236); `crypto.randomUUID()` ids are
modelled by fixed strings and `new Date()` stamps by 0 (neither takes part
in matching or dispatch). -/
def demoUsersRoute : RouteConfig :=
  { id := "route-users"
    path := "/api/users"
    method := .GET
    targets := [
      { url := "http://user-service:3001/users", weight := 1,
        isHealthy := true, lastHealthCheck := 0, responseTime := 0,
        errorCount := 0 },
      { url := "http://user-service-backup:3001/users", weight := 1,
        isHealthy := true, lastHealthCheck := 0, responseTime := 0,
        errorCount := 0 }]
    circuitBreaker := { enabled := true, threshold := 5, timeout := 30000,
                        monitorWindow := 60000 }
    timeout := 30000
    retries := 3
    isActive := true
    createdAt := 0
    updatedAt := 0 }

/-- The `GET /api/orders` demo route (lines 192-233). -/
def demoOrdersRoute : RouteConfig :=
  { id := "route-orders"
    path := "/api/orders"
    method := .GET
    targets := [
      { url := "http://order-service:3002/orders", weight := 2,
        isHealthy := true, lastHealthCheck := 0, responseTime := 0,
        errorCount := 0 },
      { url := "http://order-service-v2:3002/orders", weight := 1,
        isHealthy := true, lastHealthCheck := 0, responseTime := 0,
        errorCount := 0 }]
    circuitBreaker := { enabled := true, threshold := 5, timeout := 30000,
                        monitorWindow := 60000 }
    timeout := 30000
    retries := 3
    isActive := true
    createdAt := 0
    updatedAt := 0 }

/-- The registry's map after construction: the two demo routes under their
`METHOD:path` keys. -/
def defaultRoutes : List (String × RouteConfig) :=
  [("GET:/api/users", demoUsersRoute), ("GET:/api/orders", demoOrdersRoute)]

/-- `handleRequest`'s route lookup (`gateway.controller.ts` lines 44-48):
the controller passes the raw `request.url` — query string included — to
`findMatchingRoute`. -/
def handleRequestMatch (routes : List (String × RouteConfig)) (url : String)
    (method : HttpMethod) : Option RouteConfig :=
  findMatchingRoute routes url method

/-- C6: the route found by the dispatch depends on the query string — the
claim that matching ignores it fails.  `GET /api/users` finds the demo
route, while `GET /api/users?limit=5` finds none (the gateway then answers
404), because `handleRequest` hands the full `request.url` to
`findMatchingRoute` whose exact key and anchored pattern both include the
query text. -/
theorem routeMatch_depends_on_query_string :
    handleRequestMatch defaultRoutes "/api/users" .GET = some demoUsersRoute ∧
    handleRequestMatch defaultRoutes "/api/users?limit=5" .GET = none := by
  constructor
  · simp [handleRequestMatch, findMatchingRoute, getRoute, mapGet,
      generateRouteKey, HttpMethod.asString, defaultRoutes]
  · simp [handleRequestMatch, findMatchingRoute, getRoute, mapGet,
      generateRouteKey, HttpMethod.asString, defaultRoutes, demoUsersRoute,
      demoOrdersRoute, pathMatches, tokenize, toksMatch]

/-- C10: `findMatchingRoute` checks `isActive` only on the pattern-matching
fallback — an exact `(method, path)` hit returns the stored route even when
inactive, while the fallback returns only active routes. -/
theorem findMatchingRoute_activeFlag (routes : List (String × RouteConfig))
    (path : String) (method : HttpMethod) :
    (∀ r, getRoute routes path method = some r →
       findMatchingRoute routes path method = some r) ∧
    (getRoute routes path method = none →
       ∀ r, findMatchingRoute routes path method = some r →
         r.isActive = true) := by
  constructor
  · intro r h
    simp [findMatchingRoute, h]
  · intro h r hr
    simp only [findMatchingRoute, h] at hr
    have hfound := List.find?_some hr
    simp only [Bool.and_eq_true] at hfound
    exact hfound.1.2

/-- A deactivated copy of the users demo route. -/
def inactiveUsersRoute : RouteConfig :=
  { demoUsersRoute with id := "route-users-off", isActive := false }

/-- A registry holding only the deactivated route under its exact key. -/
def inactiveRoutes : List (String × RouteConfig) :=
  [("GET:/api/users", inactiveUsersRoute)]

theorem findMatchingRoute_activeFlag_witness :
    findMatchingRoute inactiveRoutes "/api/users" .GET =
      some inactiveUsersRoute ∧
    inactiveUsersRoute.isActive = false :=
  ⟨(findMatchingRoute_activeFlag inactiveRoutes "/api/users" .GET).1
      inactiveUsersRoute (by decide),
   by decide⟩

/-! ### Forwarder
From `src/gateway/routing/proxy.service.ts`. -/

/-- The errors `forwardRequest` catches: `BadGatewayException`,
`RequestTimeoutException`, `TypeError` and anything else, each carrying its
message. -/
inductive ProxyError
  | badGateway (msg : String)
  | requestTimeout (msg : String)
  | typeError (msg : String)
  | other (msg : String)
deriving Repr, DecidableEq

/-- `error.message`. -/
def ProxyError.message : ProxyError → String
  | .badGateway m => m
  | .requestTimeout m => m
  | .typeError m => m
  | .other m => m

/-- Lines 154-163 of `makeRequest`: an upstream status ≥ 500 becomes a
thrown `BadGatewayException` with message `Target service error: <status>`;
any other status (2xx, 3xx and 4xx alike) is returned as the response. -/
def makeRequestStatusOutcome (status : Nat) : Except ProxyError Nat :=
  if 500 ≤ status then
    .error (.badGateway ("Target service error: " ++ toString status))
  else
    .ok status

/-- Lines 167-171: a fetch timeout becomes
`RequestTimeoutException("Request timeout after <timeout>ms to <url>")`. -/
def makeRequestTimeoutError (timeout : Nat) (targetUrl : String) : ProxyError :=
  .requestTimeout ("Request timeout after " ++ toString timeout ++ "ms to " ++ targetUrl)

/-- Lines 173-177: a fetch `TypeError` becomes
`BadGatewayException("Failed to connect to target service: <url>")`. -/
def makeRequestConnectError (targetUrl : String) : ProxyError :=
  .badGateway ("Failed to connect to target service: " ++ targetUrl)

/-- `isCircuitBreakerEligibleError` (lines 238-243). -/
def isCircuitBreakerEligibleError : ProxyError → Bool
  | .badGateway _ => true
  | .requestTimeout _ => true
  | .typeError m => strIncludes m "fetch"
  | .other _ => false

/-- `shouldRetry` (lines 248-261): no retry on the final attempt, none when
the error message contains the character `'4'` (the source's 4xx test), and
otherwise retry exactly the circuit-breaker-eligible errors. -/
def shouldRetry (e : ProxyError) (attempt maxRetries : Nat) : Bool :=
  if maxRetries ≤ attempt then false
  else if strIncludes e.message "4" then false
  else isCircuitBreakerEligibleError e

/-- C5: the retry decision depends on the text of the error message.  An
upstream 504 — retryable by the claim (status ≥ 500) and indeed
breaker-eligible — is never retried, because its message
`Target service error: 504` contains a `'4'`; a 502 is retried; a timeout
whose message contains a `'4'` (here a 4000 ms timeout) is likewise not
retried; a 404 response is not an error at all and is forwarded unchanged. -/
theorem shouldRetry_depends_on_message :
    makeRequestStatusOutcome 504 =
      .error (.badGateway "Target service error: 504") ∧
    isCircuitBreakerEligibleError (.badGateway "Target service error: 504") = true ∧
    shouldRetry (.badGateway "Target service error: 504") 1 3 = false ∧
    shouldRetry (.badGateway "Target service error: 502") 1 3 = true ∧
    shouldRetry (makeRequestTimeoutError 4000 "http://user-service:3001/users") 1 3 = false ∧
    shouldRetry (makeRequestTimeoutError 30000 "http://user-service:3001/users") 1 3 = true ∧
    makeRequestStatusOutcome 404 = .ok 404 := by
  refine ⟨by rfl, by decide, by decide, by decide, by decide, by decide, by rfl⟩

/-- `forwardRequest`'s circuit-breaker gate (lines 24-34): `canExecute` is
consulted — and a denial turned into the 503 fallback — only when both the
optional `circuitBreakerConfig` and `routeId` arguments are supplied. -/
def forwardRequestGate (cbConfig : Option CircuitBreakerConfig)
    (routeId : Option String) (cb : CircuitBreakerInstance) (now : Nat) :
    Bool × CircuitBreakerInstance :=
  match cbConfig, routeId with
  | some config, some _ => canExecute config cb now
  | _, _ => (true, cb)

/-- The trailing arguments `handleRequest` passes to `forwardRequest`
(`gateway.controller.ts` lines 97-102): `route.timeout` and
`route.retries` only — the `circuitBreakerConfig` and `routeId` parameters
are left at their `undefined` defaults. -/
def handleRequestForwardArgs (route : RouteConfig) :
    Nat × Nat × Option CircuitBreakerConfig × Option String :=
  (route.timeout, route.retries, none, none)

/-- An OPEN breaker for the users route's first replica whose retry time
(10 s) has not yet arrived at t = 5 s. -/
def openUsersBreaker : CircuitBreakerInstance :=
  { id := "route-users:http://user-service:3001/users"
    stats := { state := .OPEN, failureCount := 5, successCount := 0,
               lastFailureTime := some 4000, lastSuccessTime := none,
               nextAttemptTime := some 10000, totalRequests := 5,
               totalFailures := 5, totalSuccesses := 0 }
    windowStart := 0
    failureWindow := [1000, 2000, 3000, 3500, 4000] }

/-- C4: the dispatch never consults the breaker.  The users route's breaker
config is enabled and `canExecute` would deny (OPEN, before
`nextAttemptTime`) — so a gate given the config denies — yet
`handleRequest` passes `none` for both optional arguments, and the gate it
actually exercises allows the call, so the upstream is contacted instead of
failing with the 503 fallback. -/
theorem dispatch_skips_breaker_gate :
    demoUsersRoute.circuitBreaker.enabled = true ∧
    (canExecute demoUsersRoute.circuitBreaker openUsersBreaker 5000).1 = false ∧
    (forwardRequestGate (some demoUsersRoute.circuitBreaker)
        (some demoUsersRoute.id) openUsersBreaker 5000).1 = false ∧
    (handleRequestForwardArgs demoUsersRoute).2.2.1 = none ∧
    (handleRequestForwardArgs demoUsersRoute).2.2.2 = none ∧
    (forwardRequestGate (handleRequestForwardArgs demoUsersRoute).2.2.1
        (handleRequestForwardArgs demoUsersRoute).2.2.2
        openUsersBreaker 5000).1 = true := by
  decide

end GKGate
